import Mathlib

/-!
Verification of the AR Copilot repository.

Shallow embedding of the two functional surfaces of the code base:

* `src/client/src/lib/denial-codes.ts`: the static `denialCodeMappings`
  table, `insuranceOptions`, the notes-cleaning helpers
  (`parseQAResponse`, `parseCoordinationOfBenefitsResponse`,
  `improveAdditionalNotes`) and the comment generator
  `generateRCMComment`.
* `src/server/routes.ts` with the `MemStorage` class and the zod
  schemas built from the `patientAccounts` table declaration: the
  create / read-detail / update / delete operations over the in-memory
  record store.

Modelling conventions:
* JS strings are Lean `String`s; scanning is done on `String.data`
  (`List Char`).  JS `undefined`/`null` inputs are `Option`s (`none`).
  The regex character classes are modelled over ASCII: `\w` is
  `[A-Za-z0-9_]`, `\s` is ASCII whitespace, `.` excludes `\n`/`\r`.
* `Date.now` / `new Date()` values are passed in explicitly as a `Nat`
  parameter `now`, since the source only stores them.
* A JS `Map` is an insertion-ordered association list; `Map.set`
  replaces in place or appends, `Map.delete` removes the key and
  reports whether it was present.  Object-literal lookup
  (`denialCodeMappings[k]`) is own-property lookup in the table.
-/

set_option maxRecDepth 100000

namespace ARCopilot

/-- JS regex word character (`\w`): `[A-Za-z0-9_]`. -/
def isWordChar (c : Char) : Bool := c.isAlphanum || c == '_'

/-- ASCII model of JS whitespace (`\s`, `String.prototype.trim`). -/
def isSpaceChar (c : Char) : Bool :=
  c == ' ' || c == '\t' || c == '\n' || c == '\r' || c == '\x0b' || c == '\x0c'

/-- JS regex line terminators, which `.` does not match. -/
def isLineTerm (c : Char) : Bool := c == '\n' || c == '\r'

/-- `String.prototype.toLowerCase`, ASCII model. -/
def lowerChars (l : List Char) : List Char := l.map Char.toLower

/-- `String.prototype.trim`: strip whitespace from both ends. -/
def trimChars (l : List Char) : List Char :=
  ((l.dropWhile isSpaceChar).reverse.dropWhile isSpaceChar).reverse

/-- Case-insensitive prefix test; the pattern is given in lowercase. -/
def ciPrefixOf : List Char → List Char → Bool
  | [], _ => true
  | _ :: _, [] => false
  | p :: ps, c :: cs => p == c.toLower && ciPrefixOf ps cs

/-- Case-insensitive substring test (JS `includes` / regex literal with
the `i` flag); the pattern is given in lowercase. -/
def ciContainsB (pat : List Char) : List Char → Bool
  | [] => ciPrefixOf pat []
  | c :: cs => ciPrefixOf pat (c :: cs) || ciContainsB pat cs

/-- Word-ness of the character on one side of a position (`none` is the
start or end of the string, which counts as a non-word character). -/
def wordness : Option Char → Bool
  | none => false
  | some c => isWordChar c

/-- JS regex `\b`: a position is a word boundary when the characters on
its two sides differ in word-ness. -/
def isBoundary (a b : Option Char) : Bool := wordness a != wordness b

/-- Driver for JS `String.prototype.replace` with a global regex: scan
left to right; at each position ask the matcher `m` for a match given
the previous character of the original string (for `\b` look-behind)
and the remaining input.  A matcher answer `(n, repl)` means the match
consumed `n + 1` characters and is replaced by `repl`; scanning resumes
after the consumed text, with the last consumed original character as
the new look-behind, exactly as JS continues from `lastIndex`. -/
def scanReplaceFuel (m : Option Char → List Char → Option (Nat × List Char)) :
    Nat → Option Char → List Char → List Char
  | 0, _, l => l
  | _ + 1, _, [] => []
  | fuel + 1, prev, c :: cs =>
    match m prev (c :: cs) with
    | some (n, repl) =>
        repl ++ scanReplaceFuel m fuel (some (((c :: cs).take (n + 1)).getLastD c)) (cs.drop n)
    | none => c :: scanReplaceFuel m fuel (some c) cs

/-- Entry point of the scan: a match consumes at least one character
and one unit of fuel, so fuel equal to the length of the input is never
exhausted and the fuel is only a structural-recursion device. -/
def scanReplace (m : Option Char → List Char → Option (Nat × List Char))
    (prev : Option Char) (l : List Char) : List Char :=
  scanReplaceFuel m l.length prev l

/-- Matcher for `new RegExp("\\b" ++ w ++ "\\b", "gi")` replacing by
`repl`; `w` is given in lowercase (all keys of the `improvements` table
are lowercase) and matching is case-insensitive. -/
def wordMatcher (w repl : List Char) (prev : Option Char) (s : List Char) :
    Option (Nat × List Char) :=
  if 0 < w.length && ciPrefixOf w s && isBoundary prev s.head? &&
      isBoundary (s.take w.length).getLast? (s.drop w.length).head?
  then some (w.length - 1, repl)
  else none

/-- Match a literal (lowercase) pattern piece, returning the rest. -/
def matchLit (lit s : List Char) : Option (List Char) :=
  if ciPrefixOf lit s then some (s.drop lit.length) else none

/-- Match `\s+` (greedy; the following pattern pieces never start with
whitespace, so no backtracking is needed). -/
def matchWs1 : List Char → Option (List Char)
  | [] => none
  | c :: cs => if isSpaceChar c then some (cs.dropWhile isSpaceChar) else none

/-- Match `\s*` (greedy, never fails). -/
def matchWs0 (s : List Char) : List Char := s.dropWhile isSpaceChar

/-- Match `(\d+)` (greedy), returning the digits and the rest. -/
def matchDigits1 (s : List Char) : Option (List Char × List Char) :=
  let ds := s.takeWhile Char.isDigit
  if ds.length == 0 then none else some (ds, s.drop ds.length)

/-- Match `(\d{8})`, returning the eight digits and the rest. -/
def matchDigits8 (s : List Char) : Option (List Char × List Char) :=
  let ds := s.take 8
  if ds.length == 8 && ds.all Char.isDigit then some (ds, s.drop 8) else none

/-- Matcher for `/\bno\s+void\s+any\s+claim\b/gi` replaced by
`do not void any claims`. -/
def fixNoVoid (prev : Option Char) (s : List Char) : Option (Nat × List Char) :=
  if isBoundary prev s.head? then
    (matchLit "no".data s).bind fun s1 =>
    (matchWs1 s1).bind fun s2 =>
    (matchLit "void".data s2).bind fun s3 =>
    (matchWs1 s3).bind fun s4 =>
    (matchLit "any".data s4).bind fun s5 =>
    (matchWs1 s5).bind fun s6 =>
    (matchLit "claim".data s6).bind fun s7 =>
    if isBoundary (some 'm') s7.head? then
      some (s.length - s7.length - 1, "do not void any claims".data)
    else none
  else none

/-- Matcher for `/\byes\s+true\s+duplicate\b/gi` replaced by
`confirmed true duplicate`. -/
def fixYesTrue (prev : Option Char) (s : List Char) : Option (Nat × List Char) :=
  if isBoundary prev s.head? then
    (matchLit "yes".data s).bind fun s1 =>
    (matchWs1 s1).bind fun s2 =>
    (matchLit "true".data s2).bind fun s3 =>
    (matchWs1 s3).bind fun s4 =>
    (matchLit "duplicate".data s4).bind fun s5 =>
    if isBoundary (some 'e') s5.head? then
      some (s.length - s5.length - 1, "confirmed true duplicate".data)
    else none
  else none

/-- Matcher for `/\bother\s+claim\s*#\s*(\d+)/gi` replaced by
`other claim #$1`. -/
def fixOtherClaim (prev : Option Char) (s : List Char) : Option (Nat × List Char) :=
  if isBoundary prev s.head? then
    (matchLit "other".data s).bind fun s1 =>
    (matchWs1 s1).bind fun s2 =>
    (matchLit "claim".data s2).bind fun s3 =>
    (matchLit "#".data (matchWs0 s3)).bind fun s5 =>
    (matchDigits1 (matchWs0 s5)).bind fun p =>
    some (s.length - p.2.length - 1, "other claim #".data ++ p.1)
  else none

/-- Matcher for `/\bsubmit\s+on\s+(\d{8})/gi`: the callback reads the
eight digits as DDMMYYYY and produces `submitted on MM/DD/YYYY`. -/
def fixSubmitOn (prev : Option Char) (s : List Char) : Option (Nat × List Char) :=
  if isBoundary prev s.head? then
    (matchLit "submit".data s).bind fun s1 =>
    (matchWs1 s1).bind fun s2 =>
    (matchLit "on".data s2).bind fun s3 =>
    (matchWs1 s3).bind fun s4 =>
    (matchDigits8 s4).bind fun p =>
    some (s.length - p.2.length - 1,
      "submitted on ".data ++ (p.1.drop 2).take 2 ++ "/".data ++
        p.1.take 2 ++ "/".data ++ p.1.drop 4)
  else none

/-- Matcher for `/\bpaid\s+out\b/gi` replaced by `paid in full`. -/
def fixPaidOut (prev : Option Char) (s : List Char) : Option (Nat × List Char) :=
  if isBoundary prev s.head? then
    (matchLit "paid".data s).bind fun s1 =>
    (matchWs1 s1).bind fun s2 =>
    (matchLit "out".data s2).bind fun s3 =>
    if isBoundary (some 't') s3.head? then
      some (s.length - s3.length - 1, "paid in full".data)
    else none
  else none

def collapseWsFuel : Nat → List Char → List Char
  | 0, l => l
  | _ + 1, [] => []
  | fuel + 1, c :: cs =>
    if isSpaceChar c then ' ' :: collapseWsFuel fuel (cs.dropWhile isSpaceChar)
    else c :: collapseWsFuel fuel cs

/-- `replace(/\s+/g, ' ')`: collapse every whitespace run to a space.
Each step consumes at least one character and one unit of fuel, so fuel
equal to the length of the input is never exhausted. -/
def collapseWs (l : List Char) : List Char := collapseWsFuel l.length l

/-- `improved.charAt(0).toUpperCase() + improved.slice(1)`. -/
def capitalizeFirst : List Char → List Char
  | [] => []
  | c :: cs => c.toUpper :: cs

/-- `if (!improved.match(/[.!?]$/)) improved += '.'`. -/
def ensurePunct (l : List Char) : List Char :=
  match l.getLast? with
  | some c => if c == '.' || c == '!' || c == '?' then l else l ++ ['.']
  | none => l ++ ['.']

/-- The `improvements` abbreviation table of `improveAdditionalNotes`,
in object-literal insertion order. -/
def improvements : List (String × String) := [
  ("dup", "duplicate"), ("prev", "previous"), ("claiim", "claim"),
  ("suibmit", "submitted"), ("submited", "submitted"), ("recieved", "received"),
  ("payed", "paid"), ("approvel", "approval"), ("authorizaton", "authorization"),
  ("necesary", "necessary"), ("seperately", "separately"), ("seperete", "separate"),
  ("w/", "with"), ("pt", "patient"), ("dx", "diagnosis"), ("proc", "procedure"),
  ("auth", "authorization"), ("pre-auth", "pre-authorization"), ("reimb", "reimbursement"),
  ("coord", "coordination"), ("benefts", "benefits"), ("eligibilty", "eligibility"),
  ("mcr", "Medicare"), ("prim", "primary"), ("biled", "billed")]

/-- `improveAdditionalNotes` of `denial-codes.ts`: guard on empty or
whitespace-only notes, lowercase and trim, apply the word-boundary
abbreviation replacements in table order, apply the five fixed pattern
replacements, collapse whitespace, trim, capitalize the first letter
and make sure the text ends in punctuation. -/
def improveAdditionalNotes (notes : String) : String :=
  if trimChars notes.data = [] then "" else
  let step0 := trimChars (lowerChars notes.data)
  let step1 := improvements.foldl
    (fun acc p => scanReplace (wordMatcher p.1.data p.2.data) none acc) step0
  let step2 := scanReplace fixNoVoid none step1
  let step3 := scanReplace fixYesTrue none step2
  let step4 := scanReplace fixOtherClaim none step3
  let step5 := scanReplace fixSubmitOn none step4
  let step6 := scanReplace fixPaidOut none step5
  let step7 := trimChars (collapseWs step6)
  String.mk (ensurePunct (capitalizeFirst step7))

/-- Search for `b` after the current position without crossing a line
terminator: the `.*` between the two literals of a `/a.*b/i` test. -/
def sameLineSearch (b : List Char) : List Char → Bool
  | [] => ciPrefixOf b []
  | c :: cs => ciPrefixOf b (c :: cs) || (!isLineTerm c && sameLineSearch b cs)

/-- `/a.*b/i.test`: an occurrence of `a` followed, on the same line, by
an occurrence of `b`. -/
def dotStarTest (a b : List Char) : List Char → Bool
  | [] => false
  | c :: cs =>
    (ciPrefixOf a (c :: cs) && sameLineSearch b ((c :: cs).drop a.length)) ||
      dotStarTest a b cs

/-- The `qaPatterns.some (pattern => pattern.test notes)` check of
`parseQAResponse`. -/
def hasQAFormat (notes : String) : Bool :=
  let d := notes.data
  ciContainsB "medicare".data d || ciContainsB "mcr".data d ||
  ciContainsB "aetna".data d || dotStarTest "no".data "billed".data d ||
  ciContainsB "primary".data d || ciContainsB "secondary".data d ||
  ciContainsB "1st".data d || ciContainsB "2nd".data d ||
  dotStarTest "never".data "billed".data d || ciContainsB "cob".data d ||
  ciContainsB "coordination".data d

/-- `Array.prototype.join(' and ')`. -/
def joinAnd : List String → String
  | [] => ""
  | [x] => x
  | x :: y :: ys => x ++ " and " ++ joinAnd (y :: ys)

/-- JS `r || d` for strings: the empty string is falsy. -/
def jsOrStr (r d : String) : String := if r ≠ "" then r else d

/-- `parseCoordinationOfBenefitsResponse` of `denial-codes.ts`; the
`response` accumulator is split into its three appended parts. -/
def parseCoordinationOfBenefitsResponse (notes : String) : String :=
  let ln := lowerChars notes.data
  let has : String → Bool := fun p => ciContainsB p.data ln
  let insuranceNames : List String :=
    (if has "medicare" || has "mcr" then ["Medicare"] else []) ++
    (if has "aetna" then ["Aetna"] else []) ++
    (if has "bcbs" || has "blue cross" then ["Blue Cross Blue Shield"] else []) ++
    (if has "uhc" || has "united" then ["United Healthcare"] else [])
  let primaryInsurance : String :=
    if has "medicare" && (has "primary" || has "1st") then "Medicare"
    else
      match insuranceNames with
      | n :: _ => n
      | [] => ""
  let primaryNotBilled : Bool := has "never billed" || has "not billed" || has "no prim"
  let part1 : String :=
    if insuranceNames.length > 1 then "Patient has " ++ joinAnd insuranceNames ++ ". "
    else
      match insuranceNames with
      | [n] => "Patient has " ++ n ++ ". "
      | _ => ""
  let part2 : String :=
    if primaryInsurance ≠ "" then
      primaryInsurance ++ " should be primary" ++
        (if primaryNotBilled then ", but it was not billed first. " else ". ")
    else ""
  let part3 : String :=
    if insuranceNames.length > 1 then
      match insuranceNames.find? (fun n => n != primaryInsurance) with
      | some secondary =>
          "COB order is " ++ primaryInsurance ++ " primary, then " ++ secondary ++ " secondary."
      | none => ""
    else ""
  jsOrStr (part1 ++ part2 ++ part3) (improveAdditionalNotes notes)

/-- `parseQAResponse` of `denial-codes.ts`; `notes` and `denialCode`
are the possibly-undefined form fields it is called with. -/
def parseQAResponse (notes : Option String) (denialCode : Option String) : String :=
  match notes with
  | none => ""
  | some ns =>
    if trimChars ns.data = [] then ""
    else if hasQAFormat ns && denialCode == some "CO-22" then
      parseCoordinationOfBenefitsResponse ns
    else improveAdditionalNotes ns

/-- One entry of the denial-code guidance table. -/
structure DenialCodeMapping where
  code : String
  description : String
  questions : List String
  requiredFields : List String
  nextSteps : List String

/-- The `denialCodeMappings` object of `denial-codes.ts` as an ordered
list of key/entry pairs (the own properties of the object literal). -/
def denialCodeMappings : List (String × DenialCodeMapping) := [
  ("CO-4",
   { code := "CO-4",
     description := "The procedure code is inconsistent with the modifier used or a required modifier is missing",
     questions := [
       "Which modifier was used or is missing?",
       "Is the procedure code correct for the service provided?",
       "What documentation supports the modifier usage?",
       "Does the modifier match the diagnosis?"],
     requiredFields := ["dateOfService", "repName", "additionalNotes"],
     nextSteps := [
       "Review modifier requirements",
       "Verify procedure code accuracy",
       "Prepare corrected claim for resubmission"] }),
  ("CO-6",
   { code := "CO-6",
     description := "The procedure/revenue code is inconsistent with the patient's age",
     questions := [
       "What is the patient's age?",
       "Is the procedure code age-appropriate?",
       "Are there alternative procedure codes for this age group?",
       "Is there documentation supporting the service for this age?"],
     requiredFields := ["dateOfService", "repName", "additionalNotes"],
     nextSteps := [
       "Verify patient age in records",
       "Review age-appropriate procedure codes",
       "Submit corrected claim if necessary"] }),
  ("CO-11",
   { code := "CO-11",
     description := "The diagnosis is inconsistent with the procedure",
     questions := [
       "What diagnosis codes were submitted?",
       "Do the diagnosis codes support the procedure?",
       "Is there a more appropriate diagnosis code?",
       "Is additional documentation needed to support the procedure?"],
     requiredFields := ["dateOfService", "repName", "additionalNotes"],
     nextSteps := [
       "Review diagnosis and procedure code relationship",
       "Gather supporting medical documentation",
       "Consider alternative diagnosis codes"] }),
  ("CO-15",
   { code := "CO-15",
     description := "The authorization number is missing, invalid, or does not apply to the billed services or provider",
     questions := [
       "Was prior authorization obtained?",
       "What is the authorization number and expiration date?",
       "Does the authorization cover the specific service?",
       "Is the authorization for the correct provider?"],
     requiredFields := ["dateOfService", "repName", "additionalNotes"],
     nextSteps := [
       "Verify authorization requirements",
       "Obtain valid authorization if needed",
       "Resubmit with correct authorization number"] }),
  ("CO-16",
   { code := "CO-16",
     description := "Claim/service lacks information or has submission/billing error(s)",
     questions := [
       "What specific information is missing?",
       "What type of billing error was identified?",
       "Can the claim be corrected and resubmitted?",
       "What documentation is needed for resubmission?"],
     requiredFields := ["dateOfService", "repName", "additionalNotes"],
     nextSteps := [
       "Identify missing information",
       "Correct billing errors",
       "Prepare for claim resubmission"] }),
  ("CO-18",
   { code := "CO-18",
     description := "Duplicate claim/service",
     questions := [
       "What is the original claim number or date of submission?",
       "Was the previous claim paid or processed?",
       "Is this a true duplicate or a resubmission?",
       "Should we void one of the claims?"],
     requiredFields := ["dateOfService", "repName", "callReference"],
     nextSteps := [
       "Verify original claim status",
       "Determine appropriate action",
       "Process duplicate resolution"] }),
  ("CO-22",
   { code := "CO-22",
     description := "This care may be covered by another payer per coordination of benefits",
     questions := [
       "What other insurance does the patient have?",
       "Which payer should be primary?",
       "Has the primary insurance been billed first?",
       "What is the coordination of benefits order?"],
     requiredFields := ["dateOfService", "repName", "additionalNotes"],
     nextSteps := [
       "Verify insurance coordination",
       "Bill primary payer first",
       "Update billing sequence"] }),
  ("CO-23",
   { code := "CO-23",
     description := "The impact of prior payer(s) adjudication including payments and/or adjustments",
     questions := [
       "What was the primary payer's payment amount?",
       "Were there any adjustments from the primary payer?",
       "What is the remaining patient responsibility?",
       "Should this be billed to secondary insurance?"],
     requiredFields := ["dateOfService", "repName", "additionalNotes"],
     nextSteps := [
       "Review primary payer adjudication",
       "Calculate remaining balance",
       "Bill secondary payer if applicable"] }),
  ("CO-27",
   { code := "CO-27",
     description := "Expenses incurred after coverage terminated",
     questions := [
       "What was the patient's eligibility status on the date of service?",
       "Was the plan active on the date of service?",
       "What is the effective and termination date of coverage?",
       "Is there any possibility of retroactive coverage?"],
     requiredFields := ["eligibilityStatus", "eligibilityFromDate", "dateOfService", "repName"],
     nextSteps := [
       "Document termination date in patient record",
       "Generate final comment for RCM system",
       "Mark account for patient notification"] }),
  ("CO-29",
   { code := "CO-29",
     description := "The time limit for filing has expired",
     questions := [
       "What is the filing deadline for this payer?",
       "When was the service originally provided?",
       "Are there any exceptions or appeals available?",
       "Was there a delay in receiving necessary documentation?"],
     requiredFields := ["dateOfService", "repName", "additionalNotes"],
     nextSteps := [
       "Document filing timeline",
       "Check for appeal options",
       "Review timely filing policies"] }),
  ("CO-31",
   { code := "CO-31",
     description := "Patient cannot be identified as our insured",
     questions := [
       "Is the member ID number correct?",
       "Has the patient's name changed recently?",
       "Is the date of birth accurate?",
       "Are there any aliases or alternate spellings?"],
     requiredFields := ["dateOfService", "repName", "additionalNotes"],
     nextSteps := [
       "Verify patient demographics",
       "Check for name changes or aliases",
       "Obtain updated insurance information"] }),
  ("CO-45",
   { code := "CO-45",
     description := "Charge exceeds fee schedule/maximum allowable or contracted/legislated fee arrangement",
     questions := [
       "What is the contracted rate for this service?",
       "Is this the correct procedure code?",
       "Are there any modifiers that should be applied?",
       "Is the provider in-network or out-of-network?"],
     requiredFields := ["dateOfService", "repName", "additionalNotes"],
     nextSteps := [
       "Review fee schedule",
       "Verify procedure coding",
       "Check contract terms"] }),
  ("CO-50",
   { code := "CO-50",
     description := "These are non-covered services because this is not deemed a 'medical necessity'",
     questions := [
       "What criteria was used to determine medical necessity?",
       "Is there additional documentation that supports necessity?",
       "Was a peer-to-peer review conducted?",
       "Are there appeal options available?"],
     requiredFields := ["dateOfService", "repName", "additionalNotes"],
     nextSteps := [
       "Gather additional medical documentation",
       "Consider peer-to-peer review",
       "Prepare appeal if warranted"] }),
  ("CO-96",
   { code := "CO-96",
     description := "Non-covered charge(s). At least one Remark Code must be provided",
     questions := [
       "What specific remark codes were provided?",
       "Why is this service considered non-covered?",
       "Are there any covered alternatives?",
       "Is this a plan exclusion or limitation?"],
     requiredFields := ["dateOfService", "repName", "additionalNotes"],
     nextSteps := [
       "Review remark codes",
       "Check plan benefits",
       "Explore alternatives"] }),
  ("CO-97",
   { code := "CO-97",
     description := "The benefit for this service is included in the payment/allowance for another service/procedure",
     questions := [
       "Which primary service was this bundled with?",
       "Was the bundled service paid correctly?",
       "Is there documentation showing separate services?",
       "What is the bundling policy for this procedure?"],
     requiredFields := ["dateOfService", "repName", "additionalNotes"],
     nextSteps := [
       "Review bundling documentation",
       "Verify primary service payment status",
       "Document bundling rationale"] }),
  ("CO-109",
   { code := "CO-109",
     description := "Claim not covered by this payer/contractor. You must send the claim to the correct payer/contractor",
     questions := [
       "Which payer should receive this claim?",
       "What insurance information do we have on file?",
       "Has the patient's coverage changed?",
       "Do we need updated insurance cards?"],
     requiredFields := ["dateOfService", "repName", "additionalNotes"],
     nextSteps := [
       "Verify correct payer",
       "Update insurance information",
       "Resubmit to appropriate payer"] }),
  ("CO-151",
   { code := "CO-151",
     description := "Payment adjusted because the payer deems the information submitted does not support this many/frequency of services",
     questions := [
       "What frequency limits apply to this service?",
       "How many units were billed versus allowed?",
       "Is there documentation supporting medical necessity?",
       "Are there any diagnosis codes that would support additional units?"],
     requiredFields := ["dateOfService", "repName", "additionalNotes"],
     nextSteps := [
       "Review frequency guidelines",
       "Gather supporting documentation",
       "Consider appeal if warranted"] }),
  ("CO-167",
   { code := "CO-167",
     description := "This (these) diagnosis(es) is (are) not covered",
     questions := [
       "Which specific diagnosis codes were denied?",
       "Are there alternative diagnosis codes that would be covered?",
       "Is there additional documentation to support the diagnosis?",
       "Does the plan have specific exclusions for this condition?"],
     requiredFields := ["dateOfService", "repName", "additionalNotes"],
     nextSteps := [
       "Review covered diagnosis list",
       "Consider alternative diagnosis codes",
       "Gather supporting documentation"] }),
  ("CO-170",
   { code := "CO-170",
     description := "Payment is denied when performed/billed by this type of provider",
     questions := [
       "What type of provider performed the service?",
       "Is the provider credentialed for this service?",
       "Are there provider type restrictions for this procedure?",
       "Can the service be performed by a different provider type?"],
     requiredFields := ["dateOfService", "repName", "additionalNotes"],
     nextSteps := [
       "Verify provider credentials",
       "Check service restrictions by provider type",
       "Consider referral to appropriate provider"] }),
  ("PR-1",
   { code := "PR-1",
     description := "Deductible amount",
     questions := [
       "What is the patient's annual deductible?",
       "How much has been met this year?",
       "Is this in-network or out-of-network deductible?",
       "Should we bill the patient for this amount?"],
     requiredFields := ["dateOfService", "repName", "eligibilityStatus"],
     nextSteps := [
       "Verify deductible information",
       "Calculate patient responsibility",
       "Generate patient statement"] }),
  ("PR-2",
   { code := "PR-2",
     description := "Coinsurance amount",
     questions := [
       "What is the patient's coinsurance percentage?",
       "Is this based on allowed amount or billed charges?",
       "Are there any out-of-pocket maximums to consider?",
       "Should we collect this from the patient?"],
     requiredFields := ["dateOfService", "repName", "eligibilityStatus"],
     nextSteps := [
       "Calculate coinsurance accurately",
       "Verify out-of-pocket limits",
       "Bill patient appropriately"] }),
  ("PR-3",
   { code := "PR-3",
     description := "Copayment amount",
     questions := [
       "What is the standard copay for this type of service?",
       "Was the copay collected at time of service?",
       "Are there any copay exemptions for this patient?",
       "Should we pursue collection of outstanding copay?"],
     requiredFields := ["dateOfService", "repName", "eligibilityStatus"],
     nextSteps := [
       "Verify copay requirements",
       "Check payment history",
       "Follow up on collections"] }),
  ("PR-204",
   { code := "PR-204",
     description := "This service/equipment/drug is not covered under the patient's current benefit plan",
     questions := [
       "Is prior authorization required for this service?",
       "What is the patient's current benefit plan?",
       "Are there any covered alternatives?",
       "Is this service excluded from the plan?"],
     requiredFields := ["eligibilityStatus", "dateOfService", "repName", "additionalNotes"],
     nextSteps := [
       "Review benefit plan documentation",
       "Check for prior authorization requirements",
       "Notify patient of coverage limitations"] })]

/-- Bracket lookup `denialCodeMappings[k]` (own properties). -/
def lookupMapping (k : String) : Option DenialCodeMapping :=
  (denialCodeMappings.find? (fun p => p.1 == k)).map Prod.snd

/-- The `insuranceOptions` list of `denial-codes.ts` as value/label
pairs.  The source sorts the list by label before exporting it; the
only use relevant here, `find` by value, is order-independent because
the values are pairwise distinct, so the list is kept in its written
order. -/
def insuranceOptions : List (String × String) := [
  ("aetna", "Aetna"), ("amerigroup", "Amerigroup"), ("anthem", "Anthem"),
  ("bcbs", "Blue Cross Blue Shield"), ("centene", "Centene"), ("cigna", "Cigna"),
  ("coventry", "Coventry Health Care"), ("elevance", "Elevance Health"),
  ("healthnet", "Health Net"), ("humana", "Humana"),
  ("independence", "Independence Blue Cross"), ("kaiser", "Kaiser Permanente"),
  ("medicaid", "Medicaid"), ("medicare", "Medicare"), ("molina", "Molina Healthcare"),
  ("oscar", "Oscar Health"), ("tricare", "TRICARE"), ("uhc", "United Healthcare (UHC)"),
  ("wellcare", "WellCare"), ("other", "Other")]

/-- `getInsuranceLabel` of `denial-codes.ts`: the label of the first
option with the given value, or the value itself. -/
def getInsuranceLabel (value : String) : String :=
  match insuranceOptions.find? (fun opt => opt.1 == value) with
  | some opt => opt.2
  | none => value

/-- JS `x || d` for an optional string `x`: `undefined`, `null` and
`""` are falsy and give the default. -/
def jsOr (v : Option String) (d : String) : String :=
  match v with
  | none => d
  | some s => if s = "" then d else s

/-- `getInsuranceLabel(formData.insuranceName) || "[Insurance]"`: an
undefined insurance name is not found and falls through to itself, so
both an undefined and an empty insurance name give the placeholder. -/
def resolvedInsuranceName (v : Option String) : String :=
  match v with
  | none => "[Insurance]"
  | some s => if getInsuranceLabel s = "" then "[Insurance]" else getInsuranceLabel s

/-- The form data object `generateRCMComment` receives: every field is
an optional string (`none` models a JS `undefined` field). -/
structure FormData where
  patientName : Option String := none
  accountNumber : Option String := none
  insuranceName : Option String := none
  repName : Option String := none
  callReference : Option String := none
  denialCode : Option String := none
  denialDescription : Option String := none
  dateOfService : Option String := none
  eligibilityFromDate : Option String := none
  eligibilityStatus : Option String := none
  additionalNotes : Option String := none

/-- The denial codes with their own `case` in the `switch` of
`generateRCMComment`. -/
def recognizedDenialCodes : List String :=
  ["CO-4", "CO-6", "CO-11", "CO-15", "CO-16", "CO-18", "CO-22", "CO-23",
   "CO-27", "CO-29", "CO-31", "CO-45", "CO-50", "CO-96", "CO-97", "CO-109",
   "CO-151", "CO-167", "CO-170", "PR-1", "PR-2", "PR-3", "PR-204"]

/-- The cases of the `switch (formData.denialCode)` of
`generateRCMComment`, for a defined code `c`. -/
def specificCommentFor (fd : FormData) (c : String) : String :=
  if c = "CO-4" then "Modifier issue identified. Procedure code requires correct modifier for reimbursement"
    else if c = "CO-6" then "Age-related procedure code issue. Service not appropriate for patient age"
    else if c = "CO-11" then "Diagnosis-procedure mismatch. Additional documentation required to support procedure"
    else if c = "CO-15" then "Authorization missing or invalid. Valid authorization required for reimbursement"
    else if c = "CO-16" then "Missing/incorrect information identified. Correction and resubmission required"
    else if c = "CO-18" then "Duplicate claim identified. Original claim already processed"
    else if c = "CO-22" then "COB issue - other payer primary. Primary insurance must be billed first"
    else if c = "CO-23" then "Prior payer adjudication affects payment. Review primary payer payment details"
    else if c = "CO-27" then
      "Eligibility " ++ jsOr fd.eligibilityStatus "inactive" ++ " as of " ++
        jsOr fd.eligibilityFromDate "[Date]" ++
        ". Coverage terminated prior to DOS. Patient responsibility confirmed"
    else if c = "CO-29" then "Timely filing deadline exceeded. Claim submitted beyond payer deadline"
    else if c = "CO-31" then "Patient identification issue. Member demographics require verification"
    else if c = "CO-45" then "Charge exceeds fee schedule. Payment adjusted to contracted rate"
    else if c = "CO-50" then "Medical necessity criteria not met per payer guidelines. Additional documentation required for appeal"
    else if c = "CO-96" then "Non-covered service per plan benefits. Plan exclusion applies"
    else if c = "CO-97" then "Service bundled with primary procedure per payer policy. No additional payment available"
    else if c = "CO-109" then "Wrong payer - claim must go to correct insurance carrier"
    else if c = "CO-151" then "Service frequency exceeds guidelines. Medical necessity required for additional units"
    else if c = "CO-167" then "Diagnosis not covered per plan benefits. Review covered diagnosis list"
    else if c = "CO-170" then "Provider type restriction. Service not covered when performed by this provider type"
    else if c = "PR-1" then "Patient deductible responsibility. Annual deductible not met"
    else if c = "PR-2" then "Patient coinsurance responsibility per plan benefits"
    else if c = "PR-3" then "Patient copay responsibility confirmed"
    else if c = "PR-204" then "Service not covered under current plan benefits. Plan exclusion confirmed"
    else "Denial documented per rep guidance"

/-- The `switch (formData.denialCode)` of `generateRCMComment`; an
undefined code matches no `case` and takes the `default` branch. -/
def specificComment (fd : FormData) : String :=
  match fd.denialCode with
  | none => "Denial documented per rep guidance"
  | some c => specificCommentFor fd c

/-- The `additionalInfo` part of `generateRCMComment`
(`improvedNotes ? ... : ""` with the `improvedNotes` binding inlined):
the cleaned-up notes prefixed by the segment text, or the empty
string. -/
def additionalInfo (fd : FormData) : String :=
  if parseQAResponse fd.additionalNotes fd.denialCode = "" then ""
  else " Additional notes: " ++ parseQAResponse fd.additionalNotes fd.denialCode

/-- `generateRCMComment` of `denial-codes.ts`. -/
def generateRCMComment (fd : FormData) : String :=
  "Spoke with " ++ jsOr fd.repName "[Rep Name]" ++ " from " ++
    resolvedInsuranceName fd.insuranceName ++ " - " ++ jsOr fd.denialCode "[Code]" ++
    ": " ++ specificComment fd ++ "." ++ additionalInfo fd ++
    " Call ref #" ++ jsOr fd.callReference "[Reference]"

/-- The comment template with the specific-comment slot abstracted:
`Spoke with R from I - C: SPEC. [notes] Call ref #REF`, transcribing
the template sentence the spec describes. -/
def commentWithSpecific (fd : FormData) (spec : String) : String :=
  "Spoke with " ++ jsOr fd.repName "[Rep Name]" ++ " from " ++
    resolvedInsuranceName fd.insuranceName ++ " - " ++ jsOr fd.denialCode "[Code]" ++
    ": " ++ spec ++ "." ++ additionalInfo fd ++
    " Call ref #" ++ jsOr fd.callReference "[Reference]"

/-- The fixed sentence template the switch selects for a recognized
code, transcribed independently of `specificComment` as the spec
describes it: one constant sentence per code, except that the CO-27
sentence interpolates the two eligibility fields. -/
def switchTemplate (c : String) (fd : FormData) : String :=
  if c = "CO-4" then "Modifier issue identified. Procedure code requires correct modifier for reimbursement"
  else if c = "CO-6" then "Age-related procedure code issue. Service not appropriate for patient age"
  else if c = "CO-11" then "Diagnosis-procedure mismatch. Additional documentation required to support procedure"
  else if c = "CO-15" then "Authorization missing or invalid. Valid authorization required for reimbursement"
  else if c = "CO-16" then "Missing/incorrect information identified. Correction and resubmission required"
  else if c = "CO-18" then "Duplicate claim identified. Original claim already processed"
  else if c = "CO-22" then "COB issue - other payer primary. Primary insurance must be billed first"
  else if c = "CO-23" then "Prior payer adjudication affects payment. Review primary payer payment details"
  else if c = "CO-27" then
    "Eligibility " ++ jsOr fd.eligibilityStatus "inactive" ++ " as of " ++
      jsOr fd.eligibilityFromDate "[Date]" ++
      ". Coverage terminated prior to DOS. Patient responsibility confirmed"
  else if c = "CO-29" then "Timely filing deadline exceeded. Claim submitted beyond payer deadline"
  else if c = "CO-31" then "Patient identification issue. Member demographics require verification"
  else if c = "CO-45" then "Charge exceeds fee schedule. Payment adjusted to contracted rate"
  else if c = "CO-50" then "Medical necessity criteria not met per payer guidelines. Additional documentation required for appeal"
  else if c = "CO-96" then "Non-covered service per plan benefits. Plan exclusion applies"
  else if c = "CO-97" then "Service bundled with primary procedure per payer policy. No additional payment available"
  else if c = "CO-109" then "Wrong payer - claim must go to correct insurance carrier"
  else if c = "CO-151" then "Service frequency exceeds guidelines. Medical necessity required for additional units"
  else if c = "CO-167" then "Diagnosis not covered per plan benefits. Review covered diagnosis list"
  else if c = "CO-170" then "Provider type restriction. Service not covered when performed by this provider type"
  else if c = "PR-1" then "Patient deductible responsibility. Annual deductible not met"
  else if c = "PR-2" then "Patient coinsurance responsibility per plan benefits"
  else if c = "PR-3" then "Patient copay responsibility confirmed"
  else if c = "PR-204" then "Service not covered under current plan benefits. Plan exclusion confirmed"
  else "Denial documented per rep guidance"

/-- `t` occurs verbatim as a contiguous substring of `s`. -/
def containsStr (s t : String) : Prop := t.data <:+: s.data

instance (s t : String) : Decidable (containsStr s t) :=
  inferInstanceAs (Decidable (t.data <:+: s.data))

/-- The additional notes survive trimming (`notes.trim().length > 0`
together with the notes being present). -/
def notesNonblank (fd : FormData) : Bool :=
  match fd.additionalNotes with
  | none => false
  | some s => !(trimChars s.data).isEmpty


/-!
The server side: the `patientAccounts` table declaration of
`shared/schema.ts`, the zod schemas derived from it, the `MemStorage`
class of `server/storage.ts` and the route handlers of
`server/routes.ts`.
-/

/-- A stored patient account record (`PatientAccount` of
`shared/schema.ts`): the four `notNull` text columns are `String`, the
nullable text columns are `Option String` (`none` models a JS
`null`/absent value), the two timestamps are instants modelled as
natural numbers. -/
structure PatientAccount where
  id : Nat
  patientName : String
  accountNumber : String
  insuranceName : String
  repName : Option String
  callReference : Option String
  denialCode : Option String
  denialDescription : Option String
  dateOfService : Option String
  eligibilityFromDate : Option String
  eligibilityStatus : Option String
  additionalNotes : Option String
  sessionId : String
  createdAt : Nat
  updatedAt : Nat
  deriving DecidableEq

/-- The output of `insertPatientAccountSchema.parse`
(`createInsertSchema(patientAccounts).omit(id, createdAt, updatedAt)`):
the `notNull` columns are required strings, the nullable columns are
optional nullable strings. -/
structure InsertPatientAccount where
  patientName : String
  accountNumber : String
  insuranceName : String
  sessionId : String
  repName : Option String := none
  callReference : Option String := none
  denialCode : Option String := none
  denialDescription : Option String := none
  dateOfService : Option String := none
  eligibilityFromDate : Option String := none
  eligibilityStatus : Option String := none
  additionalNotes : Option String := none

/-- The output of `updatePatientAccountSchema.parse`
(`insertPatientAccountSchema.partial()`): every field may be left out
of the update (`none` = key not supplied).  A supplied `notNull`-column
field is a string; a supplied nullable-column field may also be `null`
(the inner `Option`). -/
structure UpdatePatientAccount where
  patientName : Option String := none
  accountNumber : Option String := none
  insuranceName : Option String := none
  sessionId : Option String := none
  repName : Option (Option String) := none
  callReference : Option (Option String) := none
  denialCode : Option (Option String) := none
  denialDescription : Option (Option String) := none
  dateOfService : Option (Option String) := none
  eligibilityFromDate : Option (Option String) := none
  eligibilityStatus : Option (Option String) := none
  additionalNotes : Option (Option String) := none

/-- A JSON field of a request body: absent, `null`, or a string.
(A value of any other JSON type is rejected by every text-column
schema exactly like `null` is; such bodies are not modelled.) -/
inductive JsonVal where
  | absent
  | null
  | str (s : String)
  deriving DecidableEq

/-- A request body for the create and update endpoints: the fields the
schemas look at (zod strips unknown keys). -/
structure RequestBody where
  patientName : JsonVal := .absent
  accountNumber : JsonVal := .absent
  insuranceName : JsonVal := .absent
  sessionId : JsonVal := .absent
  repName : JsonVal := .absent
  callReference : JsonVal := .absent
  denialCode : JsonVal := .absent
  denialDescription : JsonVal := .absent
  dateOfService : JsonVal := .absent
  eligibilityFromDate : JsonVal := .absent
  eligibilityStatus : JsonVal := .absent
  additionalNotes : JsonVal := .absent

/-- `z.string()` (a required `notNull` column of the insert schema):
only a string value parses. -/
def parseRequiredString : JsonVal → Option String
  | .str s => some s
  | _ => none

/-- `z.string().nullable().optional()` (a nullable column of the insert
schema): absent and `null` parse to a missing value, a string parses to
itself; parsing never fails. -/
def parseOptNullable : JsonVal → Option String
  | .absent => none
  | .null => none
  | .str s => some s

/-- `z.string().optional()` (a `notNull` column of the partial update
schema): absent parses to not-supplied, a string parses to supplied,
`null` fails. -/
def parsePartialRequired : JsonVal → Option (Option String)
  | .absent => some none
  | .null => none
  | .str s => some (some s)

/-- `z.string().nullable().optional()` in the partial update schema:
absent parses to not-supplied, `null` to a supplied `null`, a string to
a supplied string. -/
def parsePartialNullable : JsonVal → Option (Option String)
  | .absent => none
  | .null => some none
  | .str s => some (some s)

/-- `insertPatientAccountSchema.parse(req.body)`: `none` models the
thrown `ZodError`. -/
def parseInsertPatientAccount (b : RequestBody) : Option InsertPatientAccount :=
  match parseRequiredString b.patientName, parseRequiredString b.accountNumber,
      parseRequiredString b.insuranceName, parseRequiredString b.sessionId with
  | some pn, some an, some inm, some sid =>
    some { patientName := pn, accountNumber := an, insuranceName := inm, sessionId := sid,
           repName := parseOptNullable b.repName,
           callReference := parseOptNullable b.callReference,
           denialCode := parseOptNullable b.denialCode,
           denialDescription := parseOptNullable b.denialDescription,
           dateOfService := parseOptNullable b.dateOfService,
           eligibilityFromDate := parseOptNullable b.eligibilityFromDate,
           eligibilityStatus := parseOptNullable b.eligibilityStatus,
           additionalNotes := parseOptNullable b.additionalNotes }
  | _, _, _, _ => none

/-- `updatePatientAccountSchema.parse(req.body)`: `none` models the
thrown `ZodError`. -/
def parseUpdatePatientAccount (b : RequestBody) : Option UpdatePatientAccount :=
  match parsePartialRequired b.patientName, parsePartialRequired b.accountNumber,
      parsePartialRequired b.insuranceName, parsePartialRequired b.sessionId with
  | some pn, some an, some inm, some sid =>
    some { patientName := pn, accountNumber := an, insuranceName := inm, sessionId := sid,
           repName := parsePartialNullable b.repName,
           callReference := parsePartialNullable b.callReference,
           denialCode := parsePartialNullable b.denialCode,
           denialDescription := parsePartialNullable b.denialDescription,
           dateOfService := parsePartialNullable b.dateOfService,
           eligibilityFromDate := parsePartialNullable b.eligibilityFromDate,
           eligibilityStatus := parsePartialNullable b.eligibilityStatus,
           additionalNotes := parsePartialNullable b.additionalNotes }
  | _, _, _, _ => none

/-- The patient-account `Map` of `MemStorage` as an insertion-ordered
association list, together with the `currentAccountId` counter.  The
`users` map and `currentUserId` of the class are untouched by the
patient-account operations and are left out. -/
structure MemStorage where
  patientAccounts : List (Nat × PatientAccount)
  currentAccountId : Nat

/-- The `MemStorage` constructor: empty map, counter at 1. -/
def MemStorage.init : MemStorage := { patientAccounts := [], currentAccountId := 1 }

/-- `Map.prototype.get`. -/
def mapGet (m : List (Nat × PatientAccount)) (id : Nat) : Option PatientAccount :=
  (m.find? (fun p => p.1 == id)).map Prod.snd

/-- `Map.prototype.set`: replace in place if the key is present,
append otherwise. -/
def mapSet (m : List (Nat × PatientAccount)) (id : Nat) (a : PatientAccount) :
    List (Nat × PatientAccount) :=
  if m.any (fun p => p.1 == id) then
    m.map (fun p => if p.1 == id then (id, a) else p)
  else m ++ [(id, a)]

/-- `MemStorage.getPatientAccount`. -/
def MemStorage.getPatientAccount (s : MemStorage) (id : Nat) : Option PatientAccount :=
  mapGet s.patientAccounts id

/-- `MemStorage.getPatientAccountsBySession`. -/
def MemStorage.getPatientAccountsBySession (s : MemStorage) (sessionId : String) :
    List PatientAccount :=
  (s.patientAccounts.map Prod.snd).filter (fun a => a.sessionId == sessionId)

/-- `MemStorage.createPatientAccount`; `now` is the `new Date()`
instant. -/
def MemStorage.createPatientAccount (s : MemStorage) (ins : InsertPatientAccount)
    (now : Nat) : PatientAccount × MemStorage :=
  let id := s.currentAccountId
  let account : PatientAccount :=
    { id := id
      patientName := ins.patientName
      accountNumber := ins.accountNumber
      insuranceName := ins.insuranceName
      repName := ins.repName
      callReference := ins.callReference
      denialCode := ins.denialCode
      denialDescription := ins.denialDescription
      dateOfService := ins.dateOfService
      eligibilityFromDate := ins.eligibilityFromDate
      eligibilityStatus := ins.eligibilityStatus
      additionalNotes := ins.additionalNotes
      sessionId := ins.sessionId
      createdAt := now
      updatedAt := now }
  (account, { patientAccounts := mapSet s.patientAccounts id account,
              currentAccountId := id + 1 })

/-- The spread `{ ...existing, ...updates, updatedAt: new Date() }`:
every supplied update field overrides, every other field is kept, and
`updatedAt` is set last (`id` and `createdAt` cannot be supplied, the
update schema omits them). -/
def applyUpdate (existing : PatientAccount) (u : UpdatePatientAccount)
    (now : Nat) : PatientAccount :=
  { id := existing.id
    patientName := u.patientName.getD existing.patientName
    accountNumber := u.accountNumber.getD existing.accountNumber
    insuranceName := u.insuranceName.getD existing.insuranceName
    repName := u.repName.getD existing.repName
    callReference := u.callReference.getD existing.callReference
    denialCode := u.denialCode.getD existing.denialCode
    denialDescription := u.denialDescription.getD existing.denialDescription
    dateOfService := u.dateOfService.getD existing.dateOfService
    eligibilityFromDate := u.eligibilityFromDate.getD existing.eligibilityFromDate
    eligibilityStatus := u.eligibilityStatus.getD existing.eligibilityStatus
    additionalNotes := u.additionalNotes.getD existing.additionalNotes
    sessionId := u.sessionId.getD existing.sessionId
    createdAt := existing.createdAt
    updatedAt := now }

/-- `MemStorage.updatePatientAccount`: `undefined` and an unchanged
store when the id is absent. -/
def MemStorage.updatePatientAccount (s : MemStorage) (id : Nat)
    (u : UpdatePatientAccount) (now : Nat) : Option PatientAccount × MemStorage :=
  match mapGet s.patientAccounts id with
  | none => (none, s)
  | some existing =>
    let updated := applyUpdate existing u now
    (some updated, { s with patientAccounts := mapSet s.patientAccounts id updated })

/-- `MemStorage.deletePatientAccount` (`Map.prototype.delete`): report
whether the key was present and remove it. -/
def MemStorage.deletePatientAccount (s : MemStorage) (id : Nat) : Bool × MemStorage :=
  (s.patientAccounts.any (fun p => p.1 == id),
   { s with patientAccounts := s.patientAccounts.filter (fun p => p.1 != id) })

/-- Outcome of `POST /api/accounts`. -/
inductive CreateResult where
  | created (a : PatientAccount)
  | invalid
  deriving DecidableEq

/-- Outcome of `GET /api/accounts/detail/:id`. -/
inductive DetailResult where
  | ok (a : PatientAccount)
  | notFound
  deriving DecidableEq

/-- Outcome of `PATCH /api/accounts/:id`. -/
inductive UpdateResult where
  | ok (a : PatientAccount)
  | notFound
  | invalid
  deriving DecidableEq

/-- Outcome of `DELETE /api/accounts/:id`. -/
inductive DeleteResult where
  | noContent
  | notFound
  deriving DecidableEq

/-- The create handler of `server/routes.ts`: validate, then store; a
`ZodError` yields the 400 invalid-data response before any storage
call. -/
def createAccountRoute (s : MemStorage) (body : RequestBody) (now : Nat) :
    CreateResult × MemStorage :=
  match parseInsertPatientAccount body with
  | none => (.invalid, s)
  | some ins =>
    let r := s.createPatientAccount ins now
    (.created r.1, r.2)

/-- The read-detail handler of `server/routes.ts`: 404 when the id is
not stored. -/
def getDetailRoute (s : MemStorage) (id : Nat) : DetailResult :=
  match s.getPatientAccount id with
  | none => .notFound
  | some a => .ok a

/-- The update handler of `server/routes.ts`: validate, then update;
404 when the id is not stored. -/
def updateAccountRoute (s : MemStorage) (id : Nat) (body : RequestBody) (now : Nat) :
    UpdateResult × MemStorage :=
  match parseUpdatePatientAccount body with
  | none => (.invalid, s)
  | some u =>
    match s.updatePatientAccount id u now with
    | (none, s2) => (.notFound, s2)
    | (some a, s2) => (.ok a, s2)

/-- The delete handler of `server/routes.ts`: 404 when the id was not
stored, 204 otherwise. -/
def deleteAccountRoute (s : MemStorage) (id : Nat) : DeleteResult × MemStorage :=
  let r := s.deletePatientAccount id
  (if r.1 then .noContent else .notFound, r.2)

/-- Well-formedness of the store: every key is below the counter and
the keys are pairwise distinct. -/
def storageWF (s : MemStorage) : Prop :=
  (∀ k ∈ s.patientAccounts.map Prod.fst, k < s.currentAccountId) ∧
    (s.patientAccounts.map Prod.fst).Nodup

/-- A required field of the insert schema accepts exactly a string. -/
def JsonVal.isString : JsonVal → Bool
  | .str _ => true
  | _ => false

/-! Concrete inputs used by witnesses and counterexamples. -/

/-- The form input of the C1 counterexample: recognized denial code,
non-empty notes in capital letters. -/
def c1Form : FormData := { denialCode := some "CO-4", additionalNotes := some "XYZ" }

/-- The form input of the C10 counterexample: the segment text injected
through the representative-name field, with no additional notes. -/
def c10Form : FormData := { repName := some " Additional notes: " }

/-- A one-record store used to witness C7. -/
def c7Account : PatientAccount :=
  { id := 1, patientName := "Ann", accountNumber := "A-1", insuranceName := "aetna",
    repName := none, callReference := none, denialCode := none,
    denialDescription := none, dateOfService := none, eligibilityFromDate := none,
    eligibilityStatus := none, additionalNotes := none, sessionId := "session-1",
    createdAt := 0, updatedAt := 0 }

/-- A one-record store used to witness C7. -/
def c7Store : MemStorage :=
  { patientAccounts := [(1, c7Account)], currentAccountId := 2 }

/-- An update supplying only the patient name, used to witness C7. -/
def c7Update : UpdatePatientAccount := { patientName := some "Bea" }

/-- A create request whose insurance identifier is the empty string
(the client itself sends such a body from `addNewTab`). -/
def c5Body : RequestBody :=
  { patientName := .str "New Patient", accountNumber := .str "ACC-2025-001",
    insuranceName := .str "", sessionId := .str "session-1" }

/-! Helper lemmas about the association-list model of the `Map`. -/

lemma find?_replace_self {id : Nat} {a : PatientAccount} :
    ∀ m : List (Nat × PatientAccount), m.any (fun p => p.1 == id) = true →
      (m.map (fun p => if p.1 == id then (id, a) else p)).find? (fun p => p.1 == id) =
        some (id, a)
  | [], h => by simp at h
  | p :: ps, h => by
    by_cases hp : (p.1 == id) = true
    · simp only [List.map_cons, if_pos hp]
      exact @List.find?_cons_of_pos _ (fun q => q.1 == id) (id, a)
        (ps.map (fun p => if p.1 == id then (id, a) else p)) (by simp)
    · simp only [List.map_cons, if_neg hp]
      rw [@List.find?_cons_of_neg _ (fun q => q.1 == id) p
        (ps.map (fun p => if p.1 == id then (id, a) else p)) hp]
      refine find?_replace_self ps ?_
      simpa [hp] using h

lemma find?_replace_ne {id j : Nat} {a : PatientAccount} (hj : j ≠ id) :
    ∀ m : List (Nat × PatientAccount),
      (m.map (fun p => if p.1 == id then (id, a) else p)).find? (fun p => p.1 == j) =
        m.find? (fun p => p.1 == j)
  | [] => by simp
  | p :: ps => by
    by_cases hp : (p.1 == id) = true
    · have hpid : p.1 = id := by simpa using hp
      simp only [List.map_cons, if_pos hp]
      rw [@List.find?_cons_of_neg _ (fun q => q.1 == j) (id, a)
          (ps.map (fun p => if p.1 == id then (id, a) else p)) (by simp [Ne.symm hj]),
        @List.find?_cons_of_neg _ (fun q => q.1 == j) p ps (by simp [hpid, Ne.symm hj])]
      exact find?_replace_ne hj ps
    · simp only [List.map_cons, if_neg hp]
      by_cases hq : (p.1 == j) = true
      · rw [@List.find?_cons_of_pos _ (fun q => q.1 == j) p
            (ps.map (fun p => if p.1 == id then (id, a) else p)) hq,
          @List.find?_cons_of_pos _ (fun q => q.1 == j) p ps hq]
      · rw [@List.find?_cons_of_neg _ (fun q => q.1 == j) p
            (ps.map (fun p => if p.1 == id then (id, a) else p)) hq,
          @List.find?_cons_of_neg _ (fun q => q.1 == j) p ps hq]
        exact find?_replace_ne hj ps

lemma mapGet_mapSet_self (m : List (Nat × PatientAccount)) (id : Nat) (a : PatientAccount) :
    mapGet (mapSet m id a) id = some a := by
  unfold mapGet mapSet
  by_cases h : m.any (fun p => p.1 == id) = true
  · rw [if_pos h, find?_replace_self m h]; rfl
  · rw [if_neg h, List.find?_append,
      List.find?_eq_none.mpr (fun x hx hpx => h (List.any_eq_true.mpr ⟨x, hx, hpx⟩))]
    simp

lemma mapGet_mapSet_ne (m : List (Nat × PatientAccount)) (id j : Nat) (a : PatientAccount)
    (hj : j ≠ id) : mapGet (mapSet m id a) j = mapGet m j := by
  unfold mapGet mapSet
  by_cases h : m.any (fun p => p.1 == id) = true
  · rw [if_pos h, find?_replace_ne hj m]
  · rw [if_neg h, List.find?_append]
    have : ([(id, a)].find? fun p => p.1 == j) = none := by simp [Ne.symm hj]
    rw [this, Option.or_none]

lemma keys_mapSet_present (m : List (Nat × PatientAccount)) (id : Nat) (a : PatientAccount)
    (h : m.any (fun p => p.1 == id) = true) :
    (mapSet m id a).map Prod.fst = m.map Prod.fst := by
  unfold mapSet
  rw [if_pos h, List.map_map]
  refine List.map_congr_left fun p _ => ?_
  by_cases hp : (p.1 == id) = true
  · have hpid : p.1 = id := by simpa using hp
    simp [hpid]
  · have hpid : p.1 ≠ id := by simpa using hp
    simp [hpid]

lemma keys_mapSet_absent (m : List (Nat × PatientAccount)) (id : Nat) (a : PatientAccount)
    (h : ¬ m.any (fun p => p.1 == id) = true) :
    (mapSet m id a).map Prod.fst = m.map Prod.fst ++ [id] := by
  unfold mapSet
  rw [if_neg h, List.map_append]
  rfl

lemma any_of_mapGet_some {s : List (Nat × PatientAccount)} {id : Nat} {a : PatientAccount}
    (h : mapGet s id = some a) : s.any (fun p => p.1 == id) = true := by
  unfold mapGet at h
  cases hf : s.find? (fun p => p.1 == id) with
  | none => rw [hf] at h; simp at h
  | some p =>
    have h1 : p ∈ s := List.mem_of_find?_eq_some hf
    have h2 : (fun q : Nat × PatientAccount => q.1 == id) p = true :=
      @List.find?_some _ (fun q => q.1 == id) p s hf
    exact List.any_eq_true.mpr ⟨p, h1, h2⟩

lemma mapGet_eq_none_iff {s : List (Nat × PatientAccount)} {id : Nat} :
    mapGet s id = none ↔ ∀ p ∈ s, p.1 ≠ id := by
  unfold mapGet
  constructor
  · intro h p hp hpid
    cases hf : s.find? (fun p => p.1 == id) with
    | none => exact absurd (List.find?_eq_none.mp hf p hp) (by simp [hpid])
    | some q => rw [hf] at h; simp at h
  · intro h
    rw [List.find?_eq_none.mpr fun p hp => by simpa using h p hp]
    rfl

/-! Claims about the record store and its routes. -/

/-- C6: for every record identifier with no stored record, the
read-detail, update and delete operations each return a not-found
response, and the store of records is unchanged by the failed
operation.  (For the update endpoint the body is assumed to pass
validation, which happens before the lookup; the storage-level update
operation itself is covered for every update object.) -/
theorem claim_C6 (s : MemStorage) (id : Nat)
    (h : s.getPatientAccount id = none) :
    getDetailRoute s id = .notFound
    ∧ (∀ u now, s.updatePatientAccount id u now = (none, s))
    ∧ (∀ body u now, parseUpdatePatientAccount body = some u →
        updateAccountRoute s id body now = (.notFound, s))
    ∧ deleteAccountRoute s id = (.notFound, s) := by
  have habs : ∀ p ∈ s.patientAccounts, p.1 ≠ id := mapGet_eq_none_iff.mp h
  have hupd : ∀ u now, s.updatePatientAccount id u now = (none, s) := by
    intro u now
    unfold MemStorage.updatePatientAccount
    rw [show mapGet s.patientAccounts id = none from h]
  refine ⟨?_, hupd, ?_, ?_⟩
  · unfold getDetailRoute
    rw [h]
  · intro body u now hb
    have h1 : updateAccountRoute s id body now =
        match s.updatePatientAccount id u now with
        | (none, s2) => (.notFound, s2)
        | (some a, s2) => (.ok a, s2) := by
      unfold updateAccountRoute
      rw [hb]
    rw [h1, hupd u now]
  · have hany : s.patientAccounts.any (fun p => p.1 == id) = false :=
      List.any_eq_false.mpr fun p hp => by simpa using habs p hp
    have hfil : s.patientAccounts.filter (fun p => p.1 != id) = s.patientAccounts :=
      List.filter_eq_self.mpr fun p hp => by simpa using habs p hp
    unfold deleteAccountRoute MemStorage.deletePatientAccount
    rw [hany, hfil]
    rfl

/-- Witness for C6 at the empty store and identifier 5. -/
theorem claim_C6_witness :
    getDetailRoute MemStorage.init 5 = .notFound
    ∧ MemStorage.init.updatePatientAccount 5 {} 0 = (none, MemStorage.init)
    ∧ deleteAccountRoute MemStorage.init 5 = (.notFound, MemStorage.init) := by
  have h := claim_C6 MemStorage.init 5 rfl
  exact ⟨h.1, h.2.1 {} 0, h.2.2.2⟩

/-- C7: updating a stored record applies exactly the supplied fields,
keeps every field that is not supplied (in particular `id`, `createdAt`
and, when not supplied, `sessionId`), sets `updatedAt` to the update
time, and leaves every other record of the store unchanged. -/
theorem claim_C7 (s : MemStorage) (id : Nat) (u : UpdatePatientAccount) (now : Nat)
    (existing : PatientAccount) (h : s.getPatientAccount id = some existing) :
    (s.updatePatientAccount id u now).1 = some (applyUpdate existing u now)
    ∧ (s.updatePatientAccount id u now).2.getPatientAccount id =
        some (applyUpdate existing u now)
    ∧ (∀ j, j ≠ id →
        (s.updatePatientAccount id u now).2.getPatientAccount j = s.getPatientAccount j)
    ∧ (applyUpdate existing u now).updatedAt = now
    ∧ (applyUpdate existing u now).id = existing.id
    ∧ (applyUpdate existing u now).createdAt = existing.createdAt
    ∧ (∀ v, u.patientName = some v → (applyUpdate existing u now).patientName = v)
    ∧ (u.patientName = none →
        (applyUpdate existing u now).patientName = existing.patientName)
    ∧ (∀ v, u.accountNumber = some v → (applyUpdate existing u now).accountNumber = v)
    ∧ (u.accountNumber = none →
        (applyUpdate existing u now).accountNumber = existing.accountNumber)
    ∧ (∀ v, u.insuranceName = some v → (applyUpdate existing u now).insuranceName = v)
    ∧ (u.insuranceName = none →
        (applyUpdate existing u now).insuranceName = existing.insuranceName)
    ∧ (∀ v, u.sessionId = some v → (applyUpdate existing u now).sessionId = v)
    ∧ (u.sessionId = none →
        (applyUpdate existing u now).sessionId = existing.sessionId)
    ∧ (∀ v, u.repName = some v → (applyUpdate existing u now).repName = v)
    ∧ (u.repName = none → (applyUpdate existing u now).repName = existing.repName)
    ∧ (∀ v, u.callReference = some v → (applyUpdate existing u now).callReference = v)
    ∧ (u.callReference = none →
        (applyUpdate existing u now).callReference = existing.callReference)
    ∧ (∀ v, u.denialCode = some v → (applyUpdate existing u now).denialCode = v)
    ∧ (u.denialCode = none →
        (applyUpdate existing u now).denialCode = existing.denialCode)
    ∧ (∀ v, u.denialDescription = some v →
        (applyUpdate existing u now).denialDescription = v)
    ∧ (u.denialDescription = none →
        (applyUpdate existing u now).denialDescription = existing.denialDescription)
    ∧ (∀ v, u.dateOfService = some v → (applyUpdate existing u now).dateOfService = v)
    ∧ (u.dateOfService = none →
        (applyUpdate existing u now).dateOfService = existing.dateOfService)
    ∧ (∀ v, u.eligibilityFromDate = some v →
        (applyUpdate existing u now).eligibilityFromDate = v)
    ∧ (u.eligibilityFromDate = none →
        (applyUpdate existing u now).eligibilityFromDate = existing.eligibilityFromDate)
    ∧ (∀ v, u.eligibilityStatus = some v →
        (applyUpdate existing u now).eligibilityStatus = v)
    ∧ (u.eligibilityStatus = none →
        (applyUpdate existing u now).eligibilityStatus = existing.eligibilityStatus)
    ∧ (∀ v, u.additionalNotes = some v → (applyUpdate existing u now).additionalNotes = v)
    ∧ (u.additionalNotes = none →
        (applyUpdate existing u now).additionalNotes = existing.additionalNotes) := by
  have hm : mapGet s.patientAccounts id = some existing := h
  have hu : s.updatePatientAccount id u now =
      (some (applyUpdate existing u now),
       { s with patientAccounts :=
          mapSet s.patientAccounts id (applyUpdate existing u now) }) := by
    unfold MemStorage.updatePatientAccount
    rw [hm]
  refine ⟨by rw [hu], ?_, ?_, rfl, rfl, rfl, ?_⟩
  · rw [hu]
    exact mapGet_mapSet_self _ _ _
  · intro j hj
    rw [hu]
    exact mapGet_mapSet_ne _ _ _ _ hj
  · refine ⟨fun v hv => by simp [applyUpdate, hv], fun hv => by simp [applyUpdate, hv],
      fun v hv => by simp [applyUpdate, hv], fun hv => by simp [applyUpdate, hv],
      fun v hv => by simp [applyUpdate, hv], fun hv => by simp [applyUpdate, hv],
      fun v hv => by simp [applyUpdate, hv], fun hv => by simp [applyUpdate, hv],
      fun v hv => by simp [applyUpdate, hv], fun hv => by simp [applyUpdate, hv],
      fun v hv => by simp [applyUpdate, hv], fun hv => by simp [applyUpdate, hv],
      fun v hv => by simp [applyUpdate, hv], fun hv => by simp [applyUpdate, hv],
      fun v hv => by simp [applyUpdate, hv], fun hv => by simp [applyUpdate, hv],
      fun v hv => by simp [applyUpdate, hv], fun hv => by simp [applyUpdate, hv],
      fun v hv => by simp [applyUpdate, hv], fun hv => by simp [applyUpdate, hv],
      fun v hv => by simp [applyUpdate, hv], fun hv => by simp [applyUpdate, hv],
      fun v hv => by simp [applyUpdate, hv], fun hv => by simp [applyUpdate, hv]⟩

/-- Witness for C7 on a concrete one-record store. -/
theorem claim_C7_witness :
    (c7Store.updatePatientAccount 1 c7Update 9).1 = some (applyUpdate c7Account c7Update 9)
    ∧ (c7Store.updatePatientAccount 1 c7Update 9).2.getPatientAccount 3 =
        c7Store.getPatientAccount 3
    ∧ (applyUpdate c7Account c7Update 9).patientName = "Bea"
    ∧ (applyUpdate c7Account c7Update 9).sessionId = c7Account.sessionId
    ∧ (applyUpdate c7Account c7Update 9).updatedAt = 9 := by
  have h := claim_C7 c7Store 1 c7Update 9 c7Account rfl
  exact ⟨h.1, h.2.2.1 3 (by decide), h.2.2.2.2.2.2.1 "Bea" rfl,
    h.2.2.2.2.2.2.2.2.2.2.2.2.2.1 rfl, h.2.2.2.1⟩

/-- C8: the constructor starts the identifier counter at 1; every
create assigns the current counter value as the new identifier and
bumps the counter by one (updates and deletes leave the counter alone,
so consecutive creates get consecutive identifiers and all stored
identifiers stay distinct — the well-formedness invariant is preserved
by every operation); the created record carries the creation time as
both of its timestamps. -/
theorem claim_C8 :
    MemStorage.init.currentAccountId = 1
    ∧ storageWF MemStorage.init
    ∧ (∀ (s : MemStorage) (ins : InsertPatientAccount) (now : Nat),
        (s.createPatientAccount ins now).1.id = s.currentAccountId
        ∧ (s.createPatientAccount ins now).2.currentAccountId = s.currentAccountId + 1
        ∧ (s.createPatientAccount ins now).1.createdAt = now
        ∧ (s.createPatientAccount ins now).1.updatedAt = now)
    ∧ (∀ (s : MemStorage) (id : Nat) (u : UpdatePatientAccount) (now : Nat),
        (s.updatePatientAccount id u now).2.currentAccountId = s.currentAccountId)
    ∧ (∀ (s : MemStorage) (id : Nat),
        (s.deletePatientAccount id).2.currentAccountId = s.currentAccountId)
    ∧ (∀ (s : MemStorage) (ins : InsertPatientAccount) (now : Nat),
        storageWF s → storageWF (s.createPatientAccount ins now).2)
    ∧ (∀ (s : MemStorage) (id : Nat) (u : UpdatePatientAccount) (now : Nat),
        storageWF s → storageWF (s.updatePatientAccount id u now).2)
    ∧ (∀ (s : MemStorage) (id : Nat),
        storageWF s → storageWF (s.deletePatientAccount id).2) := by
  refine ⟨rfl, ⟨by simp [MemStorage.init, storageWF], by simp [MemStorage.init, storageWF]⟩,
    fun s ins now => ⟨rfl, rfl, rfl, rfl⟩, ?_, fun s id => rfl, ?_, ?_, ?_⟩
  · intro s id u now
    unfold MemStorage.updatePatientAccount
    cases hm : mapGet s.patientAccounts id <;> rfl
  · intro s ins now hwf
    have hfresh : ∀ k ∈ s.patientAccounts.map Prod.fst, k ≠ s.currentAccountId :=
      fun k hk => Nat.ne_of_lt (hwf.1 k hk)
    have hany : s.patientAccounts.any (fun p => p.1 == s.currentAccountId) = false :=
      List.any_eq_false.mpr fun p hp => by
        simpa using hfresh p.1 (List.mem_map_of_mem Prod.fst hp)
    have hkeys := keys_mapSet_absent s.patientAccounts s.currentAccountId
      (s.createPatientAccount ins now).1 (by simp [hany])
    have hpa : (s.createPatientAccount ins now).2.patientAccounts =
        mapSet s.patientAccounts s.currentAccountId (s.createPatientAccount ins now).1 :=
      rfl
    constructor
    · intro k hk
      rw [hpa, hkeys] at hk
      rcases List.mem_append.mp hk with hk | hk
      · exact Nat.lt_succ_of_lt (hwf.1 k hk)
      · have hk2 : k = s.currentAccountId := by simpa using hk
        subst hk2
        exact Nat.lt_succ_self _
    · rw [hpa, hkeys, List.nodup_append]
      refine ⟨hwf.2, List.nodup_singleton _, ?_⟩
      intro k hk hk2
      have hk3 : k = s.currentAccountId := by simpa using hk2
      exact hfresh k hk hk3
  · intro s id u now hwf
    unfold MemStorage.updatePatientAccount
    cases hm : mapGet s.patientAccounts id with
    | none => exact hwf
    | some existing =>
      have hany : s.patientAccounts.any (fun p => p.1 == id) = true :=
        any_of_mapGet_some hm
      have hkeys := keys_mapSet_present s.patientAccounts id
        (applyUpdate existing u now) hany
      exact ⟨fun k hk => hwf.1 k (by rwa [hkeys] at hk), by rw [hkeys]; exact hwf.2⟩
  · intro s id hwf
    have hsub : ((s.patientAccounts.filter (fun p => p.1 != id)).map Prod.fst).Sublist
        (s.patientAccounts.map Prod.fst) :=
      List.Sublist.map Prod.fst (List.filter_sublist _)
    exact ⟨fun k hk => hwf.1 k (hsub.subset hk), List.Nodup.sublist hsub hwf.2⟩

/-- Witness for C8: the invariant-preservation parts applied to the
empty initial store and a concrete insert. -/
theorem claim_C8_witness :
    storageWF (MemStorage.init.createPatientAccount
      { patientName := "Ann", accountNumber := "A-1", insuranceName := "aetna",
        sessionId := "session-1" } 3).2
    ∧ storageWF (MemStorage.init.updatePatientAccount 1 {} 0).2
    ∧ storageWF (MemStorage.init.deletePatientAccount 1).2 := by
  have h := claim_C8
  exact ⟨h.2.2.2.2.2.1 MemStorage.init _ 3 h.2.1,
    h.2.2.2.2.2.2.1 MemStorage.init 1 {} 0 h.2.1,
    h.2.2.2.2.2.2.2 MemStorage.init 1 h.2.1⟩

lemma isString_exists {j : JsonVal} (h : j.isString = true) : ∃ v, j = .str v := by
  cases j with
  | str v => exact ⟨v, rfl⟩
  | absent => simp [JsonVal.isString] at h
  | null => simp [JsonVal.isString] at h

/-- C5 (amended): record creation validates presence, not
non-emptiness: a create request is accepted exactly when patient name,
account number, insurance identifier and session identifier are all
present with string values (empty strings included); any such request
is accepted, every other request fails with the invalid-input response
and adds no record; the optional fields accept any string, `null`, or
absence. -/
theorem claim_C5_amended (s : MemStorage) (body : RequestBody) (now : Nat) :
    ((body.patientName.isString && body.accountNumber.isString &&
        body.insuranceName.isString && body.sessionId.isString) = true →
      ∃ a s2, createAccountRoute s body now = (.created a, s2)
        ∧ s2.getPatientAccount a.id = some a ∧ a.id = s.currentAccountId)
    ∧ ((body.patientName.isString && body.accountNumber.isString &&
        body.insuranceName.isString && body.sessionId.isString) = false →
      createAccountRoute s body now = (.invalid, s)) := by
  constructor
  · intro hstr
    simp only [Bool.and_eq_true] at hstr
    obtain ⟨⟨⟨h1, h2⟩, h3⟩, h4⟩ := hstr
    obtain ⟨v1, hpn⟩ := isString_exists h1
    obtain ⟨v2, han⟩ := isString_exists h2
    obtain ⟨v3, hin⟩ := isString_exists h3
    obtain ⟨v4, hsid⟩ := isString_exists h4
    obtain ⟨ins, hins⟩ : ∃ ins, parseInsertPatientAccount body = some ins := by
      unfold parseInsertPatientAccount
      rw [hpn, han, hin, hsid]
      exact ⟨_, rfl⟩
    refine ⟨(s.createPatientAccount ins now).1, (s.createPatientAccount ins now).2,
      ?_, ?_, rfl⟩
    · unfold createAccountRoute
      rw [hins]
    · exact mapGet_mapSet_self _ _ _
  · intro hstr
    have hnone : parseInsertPatientAccount body = none := by
      unfold parseInsertPatientAccount
      cases hpn : body.patientName <;> cases han : body.accountNumber <;>
        cases hin : body.insuranceName <;> cases hsid : body.sessionId <;>
        rw [hpn, han, hin, hsid] at hstr <;>
        simp_all [JsonVal.isString, parseRequiredString]
    unfold createAccountRoute
    rw [hnone]

/-- Witness for C5 (amended): a fully supplied body is accepted. -/
theorem claim_C5_amended_witness :
    ∃ a s2, createAccountRoute MemStorage.init
        { patientName := .str "Ann", accountNumber := .str "A-1",
          insuranceName := .str "aetna", sessionId := .str "session-1" } 3 =
        (.created a, s2)
      ∧ s2.getPatientAccount a.id = some a ∧ a.id = MemStorage.init.currentAccountId :=
  (claim_C5_amended MemStorage.init
    { patientName := .str "Ann", accountNumber := .str "A-1",
      insuranceName := .str "aetna", sessionId := .str "session-1" } 3).1 (by decide)

/-- Counterexample to C5 as stated: a create request whose insurance
identifier is the empty string is accepted and stores a record, where
the claim requires it to fail with an invalid-input response and add
no record — the server schema checks presence, not non-emptiness. -/
theorem claim_C5_counterexample :
    (createAccountRoute MemStorage.init c5Body 0).1 =
      CreateResult.created
        { id := 1, patientName := "New Patient", accountNumber := "ACC-2025-001",
          insuranceName := "", repName := none, callReference := none,
          denialCode := none, denialDescription := none, dateOfService := none,
          eligibilityFromDate := none, eligibilityStatus := none,
          additionalNotes := none, sessionId := "session-1",
          createdAt := 0, updatedAt := 0 }
    ∧ ¬ (createAccountRoute MemStorage.init c5Body 0).2.getPatientAccount 1 = none := by
  decide

/-! Claims about the comment generator and the guidance table. -/

example : generateRCMComment { denialCode := some "CO-4", additionalNotes := some "XYZ" } =
    "Spoke with [Rep Name] from [Insurance] - CO-4: Modifier issue identified. Procedure code requires correct modifier for reimbursement. Additional notes: Xyz. Call ref #[Reference]" := by
  decide


lemma containsStr_of_eq (s t a c : String) (h : s.data = a.data ++ t.data ++ c.data) :
    containsStr s t := by
  unfold containsStr
  rw [h]
  exact List.infix_append _ _ _

lemma ensurePunct_ne_nil (l : List Char) : ensurePunct l ≠ [] := by
  unfold ensurePunct
  cases hl : l.getLast? with
  | none => simp
  | some c =>
    by_cases hc : (c == '.' || c == '!' || c == '?') = true
    · have hlne : l ≠ [] := by
        intro he
        rw [he] at hl
        simp at hl
      simp [hc, hlne]
    · simp [hc]

lemma mk_ensurePunct_ne_empty (l : List Char) : String.mk (ensurePunct l) ≠ "" := by
  intro h
  exact ensurePunct_ne_nil l (congrArg String.data h)

lemma improve_ne_empty (s : String) (hs : ¬ trimChars s.data = []) :
    improveAdditionalNotes s ≠ "" := by
  unfold improveAdditionalNotes
  rw [if_neg hs]
  exact mk_ensurePunct_ne_empty _

lemma jsOrStr_ne_empty (r d : String) (hd : d ≠ "") : jsOrStr r d ≠ "" := by
  unfold jsOrStr
  split_ifs with h
  · exact h
  · exact hd

lemma parseQA_ne_empty (fd : FormData) (h : notesNonblank fd = true) :
    parseQAResponse fd.additionalNotes fd.denialCode ≠ "" := by
  cases hn : fd.additionalNotes with
  | none => simp [notesNonblank, hn] at h
  | some s =>
    have hs : ¬ trimChars s.data = [] := by
      simp only [notesNonblank, hn, Bool.not_eq_true] at h
      simpa [List.isEmpty_iff] using h
    simp only [parseQAResponse]
    rw [if_neg hs]
    by_cases hq : (hasQAFormat s && fd.denialCode == some "CO-22") = true
    · rw [if_pos hq]
      simp only [parseCoordinationOfBenefitsResponse]
      exact jsOrStr_ne_empty _ _ (improve_ne_empty s hs)
    · rw [if_neg hq]
      exact improve_ne_empty s hs

lemma parseQA_empty (fd : FormData) (h : notesNonblank fd = false) :
    parseQAResponse fd.additionalNotes fd.denialCode = "" := by
  cases hn : fd.additionalNotes with
  | none => rfl
  | some s =>
    have hs : trimChars s.data = [] := by
      simp only [notesNonblank, hn, Bool.not_eq_true] at h
      simpa [List.isEmpty_iff] using h
    simp only [parseQAResponse]
    rw [if_pos hs]

/-- C1 (amended): the generated comment contains, verbatim, the
cleaned-up form of the additional notes produced by `parseQAResponse`
(abbreviation expansion, lower-casing, capitalization and punctuation);
the raw notes text itself appears only when that cleaning leaves it
unchanged. -/
theorem claim_C1_amended (fd : FormData) :
    containsStr (generateRCMComment fd) (parseQAResponse fd.additionalNotes fd.denialCode) := by
  by_cases h : parseQAResponse fd.additionalNotes fd.denialCode = ""
  · rw [h]
    exact List.nil_infix
  · refine containsStr_of_eq _ _
      ("Spoke with " ++ jsOr fd.repName "[Rep Name]" ++ " from " ++
        resolvedInsuranceName fd.insuranceName ++ " - " ++ jsOr fd.denialCode "[Code]" ++
        ": " ++ specificComment fd ++ "." ++ " Additional notes: ")
      (" Call ref #" ++ jsOr fd.callReference "[Reference]") ?_
    unfold generateRCMComment additionalInfo
    rw [if_neg h]
    simp only [String.data_append, List.append_assoc, List.append_nil]

/-- Counterexample to C1 as stated: for denial code CO-4 and the
non-empty notes "XYZ", the generated comment does not contain "XYZ"
verbatim — the notes-cleaning pipeline lower-cases and re-capitalizes
them to "Xyz.". -/
theorem claim_C1_counterexample :
    c1Form.additionalNotes = some "XYZ" ∧ ("XYZ" : String) ≠ ""
    ∧ ¬ containsStr (generateRCMComment c1Form) "XYZ" := by
  decide

/-- C2: `generateRCMComment` is deterministic and total, and reads
nothing outside its form object — in fact only the seven fields it
interpolates: two form inputs that agree on them produce the same
comment (the embedding is a total function, so a string is returned
for every input). -/
theorem claim_C2 (fd fd2 : FormData)
    (h1 : fd.repName = fd2.repName) (h2 : fd.insuranceName = fd2.insuranceName)
    (h3 : fd.denialCode = fd2.denialCode) (h4 : fd.callReference = fd2.callReference)
    (h5 : fd.eligibilityStatus = fd2.eligibilityStatus)
    (h6 : fd.eligibilityFromDate = fd2.eligibilityFromDate)
    (h7 : fd.additionalNotes = fd2.additionalNotes) :
    generateRCMComment fd = generateRCMComment fd2 := by
  cases fd
  cases fd2
  dsimp only at h1 h2 h3 h4 h5 h6 h7
  subst h1 h2 h3 h4 h5 h6 h7
  rfl

/-- Witness for C2: two inputs differing in the unused patient name
give the same comment. -/
theorem claim_C2_witness :
    generateRCMComment { patientName := some "Ann", denialCode := some "CO-97" } =
      generateRCMComment { patientName := some "Bob", denialCode := some "CO-97" } :=
  claim_C2 _ _ rfl rfl rfl rfl rfl rfl rfl

lemma specificComment_unrecognized {fd : FormData} {c : String}
    (hc : fd.denialCode = some c) (hmem : c ∉ recognizedDenialCodes) :
    specificComment fd = "Denial documented per rep guidance" := by
  have hne : ∀ d, d ∈ recognizedDenialCodes → ¬ c = d := fun d hd he => hmem (he ▸ hd)
  unfold specificComment
  rw [hc]
  show specificCommentFor fd c = _
  unfold specificCommentFor
  rw [if_neg (hne _ (by decide)), if_neg (hne _ (by decide)), if_neg (hne _ (by decide)),
    if_neg (hne _ (by decide)), if_neg (hne _ (by decide)), if_neg (hne _ (by decide)),
    if_neg (hne _ (by decide)), if_neg (hne _ (by decide)), if_neg (hne _ (by decide)),
    if_neg (hne _ (by decide)), if_neg (hne _ (by decide)), if_neg (hne _ (by decide)),
    if_neg (hne _ (by decide)), if_neg (hne _ (by decide)), if_neg (hne _ (by decide)),
    if_neg (hne _ (by decide)), if_neg (hne _ (by decide)), if_neg (hne _ (by decide)),
    if_neg (hne _ (by decide)), if_neg (hne _ (by decide)), if_neg (hne _ (by decide)),
    if_neg (hne _ (by decide)), if_neg (hne _ (by decide))]

/-- C3: an unrecognized (or missing, or empty) denial code produces the
comment built from the generic fallback text
`Denial documented per rep guidance`; every recognized code produces
the comment built from the fixed sentence template its switch case
selects. -/
theorem claim_C3 (fd : FormData) :
    ((fd.denialCode = none ∨ ∃ c, fd.denialCode = some c ∧ c ∉ recognizedDenialCodes) →
      generateRCMComment fd = commentWithSpecific fd "Denial documented per rep guidance")
    ∧ (∀ c, fd.denialCode = some c → c ∈ recognizedDenialCodes →
      generateRCMComment fd = commentWithSpecific fd (switchTemplate c fd)) := by
  constructor
  · intro h
    have hs : specificComment fd = "Denial documented per rep guidance" := by
      rcases h with h | ⟨c, hc, hmem⟩
      · unfold specificComment
        rw [h]
      · exact specificComment_unrecognized hc hmem
    unfold generateRCMComment commentWithSpecific
    rw [hs]
  · intro c hc hmem
    have hs : specificComment fd = switchTemplate c fd := by
      fin_cases hmem <;>
        (unfold specificComment
         rw [hc]
         simp [specificCommentFor, switchTemplate])
    unfold generateRCMComment commentWithSpecific
    rw [hs]

/-- Witness for C3: an unrecognized code and a recognized one. -/
theorem claim_C3_witness :
    generateRCMComment { denialCode := some "ZZ-99" } =
      commentWithSpecific { denialCode := some "ZZ-99" } "Denial documented per rep guidance"
    ∧ generateRCMComment { denialCode := some "CO-18" } =
      commentWithSpecific { denialCode := some "CO-18" }
        (switchTemplate "CO-18" { denialCode := some "CO-18" }) :=
  ⟨(claim_C3 _).1 (Or.inr ⟨"ZZ-99", rfl, by decide⟩),
   (claim_C3 _).2 "CO-18" rfl (by decide)⟩

/-- C4: every missing or empty interpolated field is replaced by its
bracketed placeholder in the generated comment: `[Rep Name]`,
`[Insurance]`, `[Code]` and `[Reference]`. -/
theorem claim_C4 (fd : FormData) :
    ((fd.repName = none ∨ fd.repName = some "") →
      containsStr (generateRCMComment fd) "[Rep Name]")
    ∧ ((fd.insuranceName = none ∨ fd.insuranceName = some "") →
      containsStr (generateRCMComment fd) "[Insurance]")
    ∧ ((fd.denialCode = none ∨ fd.denialCode = some "") →
      containsStr (generateRCMComment fd) "[Code]")
    ∧ ((fd.callReference = none ∨ fd.callReference = some "") →
      containsStr (generateRCMComment fd) "[Reference]") := by
  refine ⟨?_, ?_, ?_, ?_⟩
  · intro h
    have hx : jsOr fd.repName "[Rep Name]" = "[Rep Name]" := by
      rcases h with h | h <;> simp [jsOr, h]
    refine containsStr_of_eq _ _ "Spoke with "
      (" from " ++ resolvedInsuranceName fd.insuranceName ++ " - " ++
        jsOr fd.denialCode "[Code]" ++ ": " ++ specificComment fd ++ "." ++
        additionalInfo fd ++ " Call ref #" ++ jsOr fd.callReference "[Reference]") ?_
    unfold generateRCMComment
    rw [hx]
    simp only [String.data_append, List.append_assoc, List.append_nil]
  · intro h
    have hx : resolvedInsuranceName fd.insuranceName = "[Insurance]" := by
      rcases h with h | h <;> simp [resolvedInsuranceName, getInsuranceLabel, h,
        insuranceOptions]
    refine containsStr_of_eq _ _
      ("Spoke with " ++ jsOr fd.repName "[Rep Name]" ++ " from ")
      (" - " ++ jsOr fd.denialCode "[Code]" ++ ": " ++ specificComment fd ++ "." ++
        additionalInfo fd ++ " Call ref #" ++ jsOr fd.callReference "[Reference]") ?_
    unfold generateRCMComment
    rw [hx]
    simp only [String.data_append, List.append_assoc, List.append_nil]
  · intro h
    have hx : jsOr fd.denialCode "[Code]" = "[Code]" := by
      rcases h with h | h <;> simp [jsOr, h]
    refine containsStr_of_eq _ _
      ("Spoke with " ++ jsOr fd.repName "[Rep Name]" ++ " from " ++
        resolvedInsuranceName fd.insuranceName ++ " - ")
      (": " ++ specificComment fd ++ "." ++ additionalInfo fd ++ " Call ref #" ++
        jsOr fd.callReference "[Reference]") ?_
    unfold generateRCMComment
    rw [hx]
    simp only [String.data_append, List.append_assoc, List.append_nil]
  · intro h
    have hx : jsOr fd.callReference "[Reference]" = "[Reference]" := by
      rcases h with h | h <;> simp [jsOr, h]
    refine containsStr_of_eq _ _
      ("Spoke with " ++ jsOr fd.repName "[Rep Name]" ++ " from " ++
        resolvedInsuranceName fd.insuranceName ++ " - " ++ jsOr fd.denialCode "[Code]" ++
        ": " ++ specificComment fd ++ "." ++ additionalInfo fd ++ " Call ref #") "" ?_
    unfold generateRCMComment
    rw [hx]
    simp only [String.data_append, List.append_assoc, List.append_nil]

/-- Witness for C4 at the all-empty form. -/
theorem claim_C4_witness :
    containsStr (generateRCMComment {}) "[Rep Name]"
    ∧ containsStr (generateRCMComment {}) "[Insurance]"
    ∧ containsStr (generateRCMComment {}) "[Code]"
    ∧ containsStr (generateRCMComment {}) "[Reference]" :=
  ⟨(claim_C4 {}).1 (Or.inl rfl), (claim_C4 {}).2.1 (Or.inl rfl),
   (claim_C4 {}).2.2.1 (Or.inl rfl), (claim_C4 {}).2.2.2 (Or.inl rfl)⟩

/-- C9: every entry of the denial-code table stores its own key as its
`code` field and has non-empty `questions`, `requiredFields` and
`nextSteps` arrays; looking up a key that is not in the table yields
nothing. -/
theorem claim_C9 :
    (∀ p ∈ denialCodeMappings,
      p.2.code = p.1 ∧ p.2.questions ≠ [] ∧ p.2.requiredFields ≠ [] ∧ p.2.nextSteps ≠ [])
    ∧ (∀ k, k ∉ denialCodeMappings.map Prod.fst → lookupMapping k = none) := by
  constructor
  · decide
  · intro k hk
    unfold lookupMapping
    rw [List.find?_eq_none.mpr ?_]
    · rfl
    · intro p hp hbeq
      have hpk : p.1 = k := by simpa using hbeq
      exact hk (hpk ▸ List.mem_map_of_mem Prod.fst hp)

/-- Witness for C9: a key outside the table has no entry. -/
theorem claim_C9_witness : lookupMapping "CO-0" = none :=
  claim_C9.2 "CO-0" (by decide)

/-- Counterexample to C10 as stated: the comment can contain the text
` Additional notes: ` even though `additionalNotes` is empty, because
another interpolated field may itself contain that text — the `only if`
direction of the claimed equivalence fails as a substring property. -/
theorem claim_C10_counterexample :
    containsStr (generateRCMComment c10Form) " Additional notes: "
    ∧ c10Form.additionalNotes = none := by
  decide

/-- C10 (amended): every comment begins with `Spoke with ` and ends
with ` Call ref #` followed by the call reference or its placeholder;
the notes segment ` Additional notes: ` is appended exactly when the
additional notes are non-empty after trimming — when they trim to
nothing the appended notes component is empty, though the segment text
may still occur inside another interpolated field. -/
theorem claim_C10_amended (fd : FormData) :
    (∃ b, generateRCMComment fd = "Spoke with " ++ b)
    ∧ (∃ a, generateRCMComment fd =
        a ++ " Call ref #" ++ jsOr fd.callReference "[Reference]")
    ∧ (notesNonblank fd = true →
        containsStr (generateRCMComment fd) " Additional notes: ")
    ∧ (notesNonblank fd = false → additionalInfo fd = "") := by
  refine ⟨?_, ?_, ?_, ?_⟩
  · refine ⟨jsOr fd.repName "[Rep Name]" ++ " from " ++
      resolvedInsuranceName fd.insuranceName ++ " - " ++ jsOr fd.denialCode "[Code]" ++
      ": " ++ specificComment fd ++ "." ++ additionalInfo fd ++ " Call ref #" ++
      jsOr fd.callReference "[Reference]", ?_⟩
    unfold generateRCMComment
    simp [String.append_assoc]
  · exact ⟨"Spoke with " ++ jsOr fd.repName "[Rep Name]" ++ " from " ++
      resolvedInsuranceName fd.insuranceName ++ " - " ++ jsOr fd.denialCode "[Code]" ++
      ": " ++ specificComment fd ++ "." ++ additionalInfo fd, rfl⟩
  · intro h
    have hne := parseQA_ne_empty fd h
    refine containsStr_of_eq _ _
      ("Spoke with " ++ jsOr fd.repName "[Rep Name]" ++ " from " ++
        resolvedInsuranceName fd.insuranceName ++ " - " ++ jsOr fd.denialCode "[Code]" ++
        ": " ++ specificComment fd ++ ".")
      (parseQAResponse fd.additionalNotes fd.denialCode ++ " Call ref #" ++
        jsOr fd.callReference "[Reference]") ?_
    unfold generateRCMComment additionalInfo
    rw [if_neg hne]
    simp only [String.data_append, List.append_assoc, List.append_nil]
  · intro h
    unfold additionalInfo
    rw [if_pos (parseQA_empty fd h)]

/-- Witness for C10: blank and non-blank notes on concrete inputs. -/
theorem claim_C10_witness :
    containsStr (generateRCMComment { additionalNotes := some "ok" }) " Additional notes: "
    ∧ additionalInfo { additionalNotes := some "   " } = ""
    ∧ (∃ b, generateRCMComment ({} : FormData) = "Spoke with " ++ b) :=
  ⟨(claim_C10_amended { additionalNotes := some "ok" }).2.2.1 (by decide),
   (claim_C10_amended { additionalNotes := some "   " }).2.2.2 (by decide),
   (claim_C10_amended {}).1⟩

end ARCopilot
